import Mathlib

/-
Verification of the pymemcache instrumentation module
(ext/opentelemetry-ext-pymemcache/src/opentelemetry/ext/pymemcache/__init__.py).

The module monkey-patches a fixed list of command methods on the pymemcache
client class.  Each installed layer is a wrapt FunctionWrapper whose wrapper
body is produced by `_with_tracer_wrapper`:

    def wrapper(wrapped, instance, args, kwargs):
        if hasattr(wrapped, "__wrapped__"):
            return wrapped(*args, **kwargs)
        else:
            return func(tracer, cmd, wrapped, instance, args, kwargs)

and `func` is `_wrap_cmd`, which opens a span named `_CMD` of kind INTERNAL
with empty initial attributes, runs a try/except-pass block setting the
"service", `_RAWCMD` and connection attributes, and finally calls the wrapped
callable with the original arguments inside the `with` block (so the span is
ended on normal return and on exception alike).

We embed the method-table entry for one command as an inductive type `Fn`:
the original callable, or a wrapper layer around an inner callable.  Calling
semantics (`callFn`) follow the wrapper body above literally; instrumentation
(`instrumentStep`, from `_instrument`, which always wraps) pushes a layer and
deactivation (`unwrapStep`, from `_unwrap`) pops at most one layer.
-/

namespace Pymemcache

/-- Span kinds from opentelemetry.trace.SpanKind; the module only ever
passes INTERNAL (source line 107). -/
inductive SpanKind where
  | internal
  | server
  | client
  | producer
  | consumer
deriving DecidableEq, Repr

/-- A single span attribute, as set by span.set_attribute(key, value). -/
structure Attr where
  key : String
  value : String
deriving DecidableEq, Repr

/-- Record of one span handed out by the tracing SDK collaborator:
its name and kind as passed to start_as_current_span, the initial
attribute mapping passed at creation, the attributes set during the
call, and whether the span has been ended (the `with` block ends it). -/
structure SpanRecord where
  name : String
  kind : SpanKind
  initialAttributes : List Attr
  attributes : List Attr
  ended : Bool
deriving DecidableEq, Repr

/-- Source line 53. -/
def _DEFAULT_SERVICE : String := "memcached"

/-- Source line 54: attribute key for the rendered command string. -/
def _RAWCMD : String := "db.statement"

/-- Source line 55: the fixed span name used for every command. -/
def _CMD : String := "memcached.command"

/-- Source lines 56-79: the fixed enumerated set of wrapped commands. -/
def COMMANDS : List String :=
  [ "set", "set_many", "add", "replace", "append", "prepend", "cas",
    "get", "get_many", "gets", "gets_many", "delete", "delete_many",
    "incr", "decr", "touch", "stats", "version", "flush_all", "quit",
    "set_multi", "get_multi" ]

/-- The external collaborators seen by `_wrap_cmd`, each step of the
try-block modelled as a computation that may raise (Except.error) or
return a value: reading tracer.instrumentation_info.name (line 110),
`_get_query_string(args)` (line 112, an argument-rendering helper from
the util module, treated abstractly), and
`_get_address_attributes(instance)` already applied to the client
instance (line 83).  `α` is the type of the call's arguments. -/
structure TracerEnv (α : Type) where
  instrumentationName : Except Unit String
  getQueryString : α → Except Unit String
  getAddressAttributes : Except Unit (List Attr)

/-- A method-table entry for one command: either the original unwrapped
client method (a plain function carrying no `__wrapped__` attribute), or
one wrapt FunctionWrapper layer around an inner callable.  `α` is the
argument type, `ρ` the return type, `ε` the exception type of the
underlying method. -/
inductive Fn (α ρ ε : Type) where
  | orig (f : α → Except ε ρ)
  | wrapper (inner : Fn α ρ ε)

/-- hasattr(g, "__wrapped__"): true exactly for a wrapt FunctionWrapper
layer; the plain original method carries no such attribute. -/
def hasWrappedMarker {α ρ ε : Type} : Fn α ρ ε → Bool
  | .orig _ => false
  | .wrapper _ => true

/-- The underlying original method at the bottom of the layers. -/
def origOf {α ρ ε : Type} : Fn α ρ ε → (α → Except ε ρ)
  | .orig f => f
  | .wrapper inner => origOf inner

/-- Source line 113: query = "{}{}{}".format(cmd, " " if vals else "", vals).
A Python str is falsy exactly when empty. -/
def formatQuery (cmd vals : String) : String :=
  cmd ++ (if vals = "" then "" else " ") ++ vals

/-- The three attribute-setting steps of the try block of `_wrap_cmd`
(lines 110-116), in source order: set "service" to the tracer's
instrumentation-info name; render the arguments and set `_RAWCMD` to the
formatted query; set the connection attributes.  Each step either raises
or yields the attributes it sets. -/
def tryBlockSteps {α : Type} (env : TracerEnv α) (cmd : String) (args : α) :
    List (Except Unit (List Attr)) :=
  [ Except.map (fun nm => [Attr.mk "service" nm]) env.instrumentationName,
    Except.map (fun vals => [Attr.mk _RAWCMD (formatQuery cmd vals)])
      (env.getQueryString args),
    env.getAddressAttributes ]

/-- Python semantics of the try/except-pass block (lines 109-118): run the
steps in order; the first raise aborts the remaining steps but the
exception is swallowed, so the attributes set by earlier steps remain. -/
def runAttrSteps : List (Except Unit (List Attr)) → List Attr
  | [] => []
  | (Except.ok as) :: rest => as ++ runAttrSteps rest
  | (Except.error _) :: _ => []

/-- Calling semantics of a method-table entry, returning the list of spans
produced by this call (outermost first) and the call's outcome.  The
wrapper body (lines 92-97): if the wrapped callable carries `__wrapped__`,
delegate straight to it; otherwise run `_wrap_cmd` (lines 105-120): open a
span named `_CMD`, kind INTERNAL, initial attributes {}; run the try/except
attribute block; call the wrapped callable with the original arguments; the
`with` block ends the span whether the call returns or raises. -/
def callFn {α ρ ε : Type} (env : TracerEnv α) (cmd : String) :
    Fn α ρ ε → α → List SpanRecord × Except ε ρ
  | .orig f, args => ([], f args)
  | .wrapper inner, args =>
      if hasWrappedMarker inner then
        callFn env cmd inner args
      else
        let attrs := runAttrSteps (tryBlockSteps env cmd args)
        let sub := callFn env cmd inner args
        (SpanRecord.mk _CMD SpanKind.internal [] attrs true :: sub.1, sub.2)

/-- `_instrument` (lines 138-143) installs one more wrapper layer via
wrapt.wrap_function_wrapper; it performs no already-wrapped check. -/
def instrumentStep {α ρ ε : Type} (fn : Fn α ρ ε) : Fn α ρ ε :=
  Fn.wrapper fn

/-- `_unwrap` (lines 123-127): if the installed callable is an ObjectProxy
carrying `__wrapped__` (i.e. a wrapper layer), replace it by that
`__wrapped__` reference; otherwise leave it untouched. -/
def unwrapStep {α ρ ε : Type} : Fn α ρ ε → Fn α ρ ε
  | .orig f => .orig f
  | .wrapper inner => inner

/-- Number of wrapper layers currently installed on top of the original. -/
def wrapDepth {α ρ ε : Type} : Fn α ρ ε → Nat
  | .orig _ => 0
  | .wrapper inner => 1 + wrapDepth inner

/-- The client type's method table, one entry per method name. -/
def MethodTable (α ρ ε : Type) := String → Fn α ρ ε

/-- One `activate` (`_instrument`, lines 134-143): every command name in
COMMANDS gets a fresh wrapper layer; other methods are untouched. -/
def instrumentTable {α ρ ε : Type} (t : MethodTable α ρ ε) : MethodTable α ρ ε :=
  fun name => if name ∈ COMMANDS then instrumentStep (t name) else t name

/-- One `deactivate` (`_uninstrument`, lines 145-147): `_unwrap` is applied
to every command name in COMMANDS; other methods are untouched. -/
def uninstrumentTable {α ρ ε : Type} (t : MethodTable α ρ ε) : MethodTable α ρ ε :=
  fun name => if name ∈ COMMANDS then unwrapStep (t name) else t name

/-! Helper lemmas about the calling and (de)activation semantics. -/

theorem callFn_delegate {α ρ ε : Type} (env : TracerEnv α) (cmd : String)
    (inner : Fn α ρ ε) (args : α) (h : hasWrappedMarker inner = true) :
    callFn env cmd (Fn.wrapper inner) args = callFn env cmd inner args := by
  simp [callFn, h]

theorem callFn_base {α ρ ε : Type} (env : TracerEnv α) (cmd : String)
    (f : α → Except ε ρ) (args : α) :
    callFn env cmd (Fn.wrapper (Fn.orig f)) args =
      ([SpanRecord.mk _CMD SpanKind.internal []
          (runAttrSteps (tryBlockSteps env cmd args)) true], f args) := by
  simp [callFn, hasWrappedMarker]

theorem callFn_result {α ρ ε : Type} (env : TracerEnv α) (cmd : String)
    (fn : Fn α ρ ε) (args : α) :
    (callFn env cmd fn args).2 = origOf fn args := by
  induction fn with
  | orig f => rfl
  | wrapper inner ih =>
      by_cases h : hasWrappedMarker inner = true
      · rw [callFn_delegate env cmd inner args h]
        exact ih
      · simp only [Bool.not_eq_true] at h
        simp [callFn, h, origOf, ih]

theorem callFn_spans_shape {α ρ ε : Type} (env : TracerEnv α) (cmd : String)
    (fn : Fn α ρ ε) (args : α) :
    ∀ s ∈ (callFn env cmd fn args).1,
      s.name = _CMD ∧ s.kind = SpanKind.internal ∧
      s.initialAttributes = [] ∧ s.ended = true := by
  induction fn with
  | orig f => intro s hs; simp [callFn] at hs
  | wrapper inner ih =>
      intro s hs
      by_cases h : hasWrappedMarker inner = true
      · rw [callFn_delegate env cmd inner args h] at hs
        exact ih s hs
      · simp only [Bool.not_eq_true] at h
        simp only [callFn, h, Bool.false_eq_true, if_false, List.mem_cons] at hs
        rcases hs with hs | hs
        · subst hs; exact ⟨rfl, rfl, rfl, rfl⟩
        · exact ih s hs

theorem callFn_spans_length_env {α ρ ε : Type} (env env' : TracerEnv α)
    (cmd cmd' : String) (fn : Fn α ρ ε) (args args' : α) :
    ((callFn env cmd fn args).1).length = ((callFn env' cmd' fn args').1).length := by
  induction fn with
  | orig f => rfl
  | wrapper inner ih =>
      by_cases h : hasWrappedMarker inner = true
      · rw [callFn_delegate env cmd inner args h,
          callFn_delegate env' cmd' inner args' h]
        exact ih
      · simp only [Bool.not_eq_true] at h
        simp [callFn, h, ih]

theorem marker_iterate {α ρ ε : Type} (s : Fn α ρ ε) (d : Nat) (hd : 1 ≤ d) :
    hasWrappedMarker (instrumentStep^[d] s) = true := by
  cases d with
  | zero => omega
  | succ m => rw [Function.iterate_succ_apply']; rfl

theorem callFn_spanCount_iterate {α ρ ε : Type} (env : TracerEnv α) (cmd : String)
    (f : α → Except ε ρ) (args : α) (n : Nat) :
    ((callFn env cmd (instrumentStep^[n] (Fn.orig f)) args).1).length = min n 1 := by
  induction n with
  | zero => rfl
  | succ n ih =>
      rw [Function.iterate_succ_apply']
      cases n with
      | zero => rfl
      | succ m =>
          have hm : hasWrappedMarker (instrumentStep^[m + 1] (Fn.orig f)) = true :=
            marker_iterate (Fn.orig f) (m + 1) (by omega)
          have hdel : callFn env cmd (Fn.wrapper (instrumentStep^[m + 1] (Fn.orig f))) args
              = callFn env cmd (instrumentStep^[m + 1] (Fn.orig f)) args :=
            callFn_delegate env cmd _ args hm
          rw [instrumentStep, hdel, ih]
          omega

theorem wrapDepth_iterate {α ρ ε : Type} (f : α → Except ε ρ) (n : Nat) :
    wrapDepth (instrumentStep^[n] (Fn.orig f)) = n := by
  induction n with
  | zero => rfl
  | succ n ih =>
      rw [Function.iterate_succ_apply']
      simp only [instrumentStep, wrapDepth, ih]
      omega

theorem unwrap_iterate_instrument_iterate {α ρ ε : Type} (s : Fn α ρ ε) (n : Nat) :
    unwrapStep^[n] (instrumentStep^[n] s) = s := by
  induction n with
  | zero => rfl
  | succ n ih =>
      have h1 : instrumentStep^[n + 1] s = instrumentStep (instrumentStep^[n] s) :=
        Function.iterate_succ_apply' instrumentStep n s
      have h2 : ∀ x : Fn α ρ ε, unwrapStep^[n + 1] x = unwrapStep^[n] (unwrapStep x) :=
        fun x => Function.iterate_succ_apply unwrapStep n x
      rw [h1, h2]
      exact ih

theorem unwrap_iterate_le {α ρ ε : Type} (s : Fn α ρ ε) :
    ∀ k n : Nat, k ≤ n →
      unwrapStep^[k] (instrumentStep^[n] s) = instrumentStep^[n - k] s := by
  intro k
  induction k with
  | zero => intro n _; rfl
  | succ k ih =>
      intro n hk
      cases n with
      | zero => omega
      | succ m =>
          rw [Function.iterate_succ_apply]
          have h1 : instrumentStep^[m + 1] s = instrumentStep (instrumentStep^[m] s) :=
            Function.iterate_succ_apply' instrumentStep m s
          have h2 : unwrapStep (instrumentStep (instrumentStep^[m] s)) = instrumentStep^[m] s := rfl
          rw [h1, h2, ih m (by omega)]
          congr 1
          omega

theorem instrumentTable_iterate_apply {α ρ ε : Type} (t : MethodTable α ρ ε)
    (name : String) (n : Nat) :
    (instrumentTable^[n] t) name =
      if name ∈ COMMANDS then instrumentStep^[n] (t name) else t name := by
  induction n with
  | zero => by_cases h : name ∈ COMMANDS <;> simp [h]
  | succ n ih =>
      rw [Function.iterate_succ_apply']
      by_cases h : name ∈ COMMANDS
      · simp only [instrumentTable, ih, h, if_true]
        rw [Function.iterate_succ_apply']
      · simp only [instrumentTable, ih, h, if_false]

/-! Concrete fixtures used by witness theorems: a client whose commands take
a Nat key and return it, an environment in which every attribute step
succeeds, and the span such a call produces. -/

def envW : TracerEnv Nat :=
  TracerEnv.mk (Except.ok "opentelemetry.ext.pymemcache")
    (fun _ => Except.ok "key")
    (Except.ok [Attr.mk "net.peer.name" "localhost"])

def fW : Nat → Except Unit Nat := fun k => Except.ok k

def tW : String → Nat → Except Unit Nat := fun _ k => Except.ok k

def fErr : Nat → Except Nat Nat := fun _ => Except.error 7

def spanW : SpanRecord :=
  SpanRecord.mk "memcached.command" SpanKind.internal []
    [Attr.mk "service" "opentelemetry.ext.pymemcache",
     Attr.mk "db.statement" "get key",
     Attr.mk "net.peer.name" "localhost"] true

/-! The claims. -/

/-- C1: for every command in the fixed enumerated set COMMANDS, after one
or more activations a call through the installed method produces exactly
one span: the call-time guard (hasattr(wrapped, `__wrapped__`)) makes every
outer layer delegate directly to the already-wrapped callable without
creating a span, so only the innermost layer opens one. -/
theorem C1_single_span_after_activations {α ρ ε : Type} (env : TracerEnv α)
    (t : String → α → Except ε ρ) (cmd : String) (args : α) (n : Nat)
    (hcmd : cmd ∈ COMMANDS) (hn : 1 ≤ n) :
    ((callFn env cmd
        ((instrumentTable^[n] (fun name => Fn.orig (t name))) cmd) args).1).length = 1 := by
  rw [instrumentTable_iterate_apply, if_pos hcmd]
  show ((callFn env cmd (instrumentStep^[n] (Fn.orig (t cmd))) args).1).length = 1
  rw [callFn_spanCount_iterate]
  omega

/-- Witness for C1: the command "get" after two activations, called at 5. -/
theorem C1_single_span_after_activations_witness :
    ("get" ∈ COMMANDS ∧ 1 ≤ 2) ∧
    ((callFn envW "get"
        ((instrumentTable^[2] (fun name => Fn.orig (tW name))) "get") 5).1).length = 1 :=
  ⟨⟨by decide, by decide⟩,
   C1_single_span_after_activations envW tW "get" 5 2 (by decide) (by decide)⟩

/-- C2: whatever the instrumentation state (any number of wrapper layers,
including none), a call returns exactly the outcome of the underlying
original method applied to the unchanged arguments — the same value on
success and the same exception on failure. -/
theorem C2_transparent_passthrough {α ρ ε : Type} (env : TracerEnv α) (cmd : String)
    (fn : Fn α ρ ε) (args : α) :
    (callFn env cmd fn args).2 = origOf fn args :=
  callFn_result env cmd fn args

/-- C3: failures of the attribute steps are swallowed: for every pair of
environments (in which any of the service, query-string or connection
attribute steps may raise), the call outcome equals the underlying
method's outcome on the original arguments and the number of spans is
unchanged, so an attribute failure is invisible to the caller. -/
theorem C3_attribute_failures_swallowed {α ρ ε : Type} (env env' : TracerEnv α)
    (cmd : String) (fn : Fn α ρ ε) (args : α) :
    (callFn env cmd fn args).2 = origOf fn args ∧
    (callFn env cmd fn args).2 = (callFn env' cmd fn args).2 ∧
    ((callFn env cmd fn args).1).length = ((callFn env' cmd fn args).1).length :=
  ⟨callFn_result env cmd fn args,
   by rw [callFn_result, callFn_result],
   callFn_spans_length_env env env' cmd cmd fn args args⟩

/-- C4: when the underlying method raises, the identical exception is the
call's outcome, and every span produced by the call is nevertheless ended
(the `with` block finalizes the span before the exception propagates). -/
theorem C4_exception_propagation {α ρ ε : Type} (env : TracerEnv α) (cmd : String)
    (fn : Fn α ρ ε) (args : α) (e : ε) (h : origOf fn args = Except.error e) :
    (callFn env cmd fn args).2 = Except.error e ∧
    ∀ s ∈ (callFn env cmd fn args).1, s.ended = true := by
  refine ⟨?_, ?_⟩
  · rw [callFn_result]
    exact h
  · intro s hs
    exact (callFn_spans_shape env cmd fn args s hs).2.2.2

/-- Witness for C4: a wrapped method that raises exception 7 at input 0. -/
theorem C4_exception_propagation_witness :
    (origOf (Fn.wrapper (Fn.orig fErr)) 0 = Except.error 7) ∧
    ((callFn envW "get" (Fn.wrapper (Fn.orig fErr)) 0).2 = Except.error 7 ∧
     ∀ s ∈ (callFn envW "get" (Fn.wrapper (Fn.orig fErr)) 0).1, s.ended = true) :=
  ⟨rfl, C4_exception_propagation envW "get" (Fn.wrapper (Fn.orig fErr)) 0 7 rfl⟩

/-- C5 counterexample: `_instrument` performs no already-wrapped check, so
a second activation installs a second wrapping layer: the method table
then holds two layers for the command, refuting "the method table never
holds more than one wrapping layer per command" and with it the claim
that the wrap step detects and skips re-wrapping. -/
theorem C5_counterexample :
    wrapDepth (instrumentStep (instrumentStep (Fn.orig fW))) = 2 ∧
    ¬ (wrapDepth (instrumentStep (instrumentStep (Fn.orig fW))) ≤ 1) :=
  ⟨rfl, by decide⟩

/-- C5 amended: the wrap step never checks for an existing wrapper: n
activations leave exactly n wrapping layers in the method table; what is
guaranteed at most once is span creation, because the call-time guard in
the wrapper makes outer layers delegate, so a call produces min n 1
spans. -/
theorem C5_amended_layers_accumulate {α ρ ε : Type} (env : TracerEnv α)
    (cmd : String) (f : α → Except ε ρ) (args : α) (n : Nat) :
    wrapDepth (instrumentStep^[n] (Fn.orig f)) = n ∧
    ((callFn env cmd (instrumentStep^[n] (Fn.orig f)) args).1).length = min n 1 :=
  ⟨wrapDepth_iterate f n, callFn_spanCount_iterate env cmd f args n⟩

/-- C6 counterexample: with two activation layers installed the installed
callable carries the wrapped marker, yet `_unwrap` replaces it by a
callable that still carries the marker and whose invocation still
produces a span — not the original unwrapped callable (which carries no
marker), refuting "deactivate restores the original unwrapped callable
when the currently installed method carries the wrapped marker". -/
theorem C6_counterexample :
    hasWrappedMarker (Fn.orig fW) = false ∧
    hasWrappedMarker (instrumentStep (instrumentStep (Fn.orig fW))) = true ∧
    hasWrappedMarker (unwrapStep (instrumentStep (instrumentStep (Fn.orig fW)))) = true ∧
    ((callFn envW "get"
        (unwrapStep (instrumentStep (instrumentStep (Fn.orig fW)))) 5).1).length = 1 :=
  ⟨rfl, rfl, rfl, rfl⟩

/-- C6 amended: `_unwrap` replaces the installed callable by the reference
stored under its wrapped marker — removing exactly one layer — when the
marker is present, and is a no-op otherwise; that reference is the
original unwrapped callable whenever exactly one activation layer is
installed; deactivation is safe when never activated or repeated; and
after one deactivation following a single activation a call produces zero
spans and returns the original method's outcome. -/
theorem C6_amended_unwrap_one_layer {α ρ ε : Type} (env : TracerEnv α)
    (cmd : String) (f : α → Except ε ρ) (args : α) :
    (∀ inner : Fn α ρ ε, unwrapStep (Fn.wrapper inner) = inner) ∧
    unwrapStep (Fn.orig f) = Fn.orig f ∧
    unwrapStep (instrumentStep (Fn.orig f)) = Fn.orig f ∧
    unwrapStep (unwrapStep (instrumentStep (Fn.orig f))) = Fn.orig f ∧
    callFn env cmd (unwrapStep (instrumentStep (Fn.orig f))) args = ([], f args) :=
  ⟨fun _ => rfl, rfl, rfl, rfl, rfl⟩

/-- C7: when the service step succeeds and the arguments render to `vals`,
the `_RAWCMD` attribute set on the call's single span is the formatted
query, which is the bare command name when `vals` is empty and the
command name, one space and `vals` otherwise — whether or not the
connection-attribute step fails. -/
theorem C7_command_string_format {α ρ ε : Type} (env : TracerEnv α) (cmd : String)
    (f : α → Except ε ρ) (args : α) (nm vals : String)
    (hnm : env.instrumentationName = Except.ok nm)
    (hq : env.getQueryString args = Except.ok vals) :
    formatQuery cmd vals = (if vals = "" then cmd else cmd ++ " " ++ vals) ∧
    Attr.mk _RAWCMD (formatQuery cmd vals) ∈ runAttrSteps (tryBlockSteps env cmd args) ∧
    (callFn env cmd (Fn.wrapper (Fn.orig f)) args).1 =
      [SpanRecord.mk _CMD SpanKind.internal []
        (runAttrSteps (tryBlockSteps env cmd args)) true] := by
  refine ⟨?_, ?_, ?_⟩
  · by_cases hv : vals = ""
    · subst hv
      simp [formatQuery]
    · simp [formatQuery, hv]
  · have hsteps : tryBlockSteps env cmd args =
        [Except.ok [Attr.mk "service" nm],
         Except.ok [Attr.mk _RAWCMD (formatQuery cmd vals)],
         env.getAddressAttributes] := by
      simp [tryBlockSteps, hnm, hq, Except.map]
    rw [hsteps]
    cases h3 : env.getAddressAttributes with
    | ok as => simp [runAttrSteps]
    | error e => simp [runAttrSteps]
  · rw [callFn_base]

/-- Witness for C7: the command "get" with arguments rendering to "key". -/
theorem C7_command_string_format_witness :
    (envW.instrumentationName = Except.ok "opentelemetry.ext.pymemcache" ∧
     envW.getQueryString 5 = Except.ok "key") ∧
    (formatQuery "get" "key" = (if ("key" : String) = "" then "get" else "get" ++ " " ++ "key") ∧
     Attr.mk _RAWCMD (formatQuery "get" "key") ∈ runAttrSteps (tryBlockSteps envW "get" 5) ∧
     (callFn envW "get" (Fn.wrapper (Fn.orig fW)) 5).1 =
       [SpanRecord.mk _CMD SpanKind.internal []
         (runAttrSteps (tryBlockSteps envW "get" 5)) true]) :=
  ⟨⟨rfl, rfl⟩,
   C7_command_string_format envW "get" fW 5 "opentelemetry.ext.pymemcache" "key" rfl rfl⟩

/-- C8: every span produced by a call through any wrapper state is created
with the fixed name `_CMD` (independent of the command invoked), kind
INTERNAL, and an empty initial attribute set. -/
theorem C8_span_created_internal_fixed_name {α ρ ε : Type} (env : TracerEnv α)
    (cmd : String) (fn : Fn α ρ ε) (args : α) :
    ∀ s ∈ (callFn env cmd fn args).1,
      s.name = _CMD ∧ s.kind = SpanKind.internal ∧ s.initialAttributes = [] := by
  intro s hs
  have h := callFn_spans_shape env cmd fn args s hs
  exact ⟨h.1, h.2.1, h.2.2.1⟩

/-- Witness for C8: the concrete span produced by a single-layer call. -/
theorem C8_span_created_internal_fixed_name_witness :
    spanW ∈ (callFn envW "get" (Fn.wrapper (Fn.orig fW)) 5).1 ∧
    (spanW.name = _CMD ∧ spanW.kind = SpanKind.internal ∧ spanW.initialAttributes = []) :=
  ⟨by decide,
   C8_span_created_internal_fixed_name envW "get" (Fn.wrapper (Fn.orig fW)) 5 spanW (by decide)⟩

/-- C9: activation layers accumulate and each deactivation removes exactly
one: after two activations and one deactivation the installed method still
carries the wrapped marker and a call still produces one span; k
deactivations undo k of n activations (k < n leaves a wrapper installed),
and exactly n deactivations restore the original. -/
theorem C9_one_layer_per_deactivate {α ρ ε : Type} (env : TracerEnv α)
    (cmd : String) (f : α → Except ε ρ) (args : α) (n k : Nat) (hk : k < n) :
    hasWrappedMarker (unwrapStep (instrumentStep (instrumentStep (Fn.orig f)))) = true ∧
    ((callFn env cmd
        (unwrapStep (instrumentStep (instrumentStep (Fn.orig f)))) args).1).length = 1 ∧
    unwrapStep^[k] (instrumentStep^[n] (Fn.orig f)) = instrumentStep^[n - k] (Fn.orig f) ∧
    hasWrappedMarker (unwrapStep^[k] (instrumentStep^[n] (Fn.orig f))) = true ∧
    unwrapStep^[n] (instrumentStep^[n] (Fn.orig f)) = Fn.orig f := by
  refine ⟨rfl, ?_, unwrap_iterate_le (Fn.orig f) k n (le_of_lt hk), ?_,
    unwrap_iterate_instrument_iterate (Fn.orig f) n⟩
  · show ((callFn env cmd (Fn.wrapper (Fn.orig f)) args).1).length = 1
    rw [callFn_base]
    rfl
  · rw [unwrap_iterate_le (Fn.orig f) k n (le_of_lt hk)]
    exact marker_iterate (Fn.orig f) (n - k) (by omega)

/-- Witness for C9: two activations, one deactivation (n = 2, k = 1). -/
theorem C9_one_layer_per_deactivate_witness :
    (1 < 2) ∧
    (hasWrappedMarker (unwrapStep (instrumentStep (instrumentStep (Fn.orig fW)))) = true ∧
     ((callFn envW "get"
         (unwrapStep (instrumentStep (instrumentStep (Fn.orig fW)))) 5).1).length = 1 ∧
     unwrapStep^[1] (instrumentStep^[2] (Fn.orig fW)) = instrumentStep^[2 - 1] (Fn.orig fW) ∧
     hasWrappedMarker (unwrapStep^[1] (instrumentStep^[2] (Fn.orig fW))) = true ∧
     unwrapStep^[2] (instrumentStep^[2] (Fn.orig fW)) = Fn.orig fW) :=
  ⟨by decide, C9_one_layer_per_deactivate envW "get" fW 5 2 1 (by decide)⟩

/-- C10: the telemetry names are fixed constants: the span name `_CMD` is
"memcached.command", the rendered command string goes under the attribute
key `_RAWCMD` = "db.statement", and when the service step succeeds the
"service" attribute holds the tracer's instrumentation-info name. -/
theorem C10_fixed_constants {α ρ ε : Type} (env : TracerEnv α) (cmd : String)
    (fn : Fn α ρ ε) (args : α) (nm : String)
    (hnm : env.instrumentationName = Except.ok nm) :
    _CMD = "memcached.command" ∧ _RAWCMD = "db.statement" ∧
    (∀ s ∈ (callFn env cmd fn args).1, s.name = "memcached.command") ∧
    Attr.mk "service" nm ∈ runAttrSteps (tryBlockSteps env cmd args) := by
  refine ⟨rfl, rfl, ?_, ?_⟩
  · intro s hs
    exact (callFn_spans_shape env cmd fn args s hs).1
  · simp only [tryBlockSteps, hnm, Except.map, runAttrSteps]
    exact List.mem_append_left _ (List.mem_singleton.mpr rfl)

/-- Witness for C10: the successful environment and a single-layer call. -/
theorem C10_fixed_constants_witness :
    (envW.instrumentationName = Except.ok "opentelemetry.ext.pymemcache") ∧
    (_CMD = "memcached.command" ∧ _RAWCMD = "db.statement" ∧
     (∀ s ∈ (callFn envW "get" (Fn.wrapper (Fn.orig fW)) 5).1,
       s.name = "memcached.command") ∧
     Attr.mk "service" "opentelemetry.ext.pymemcache" ∈
       runAttrSteps (tryBlockSteps envW "get" 5)) :=
  ⟨rfl, C10_fixed_constants envW "get" (Fn.wrapper (Fn.orig fW)) 5
    "opentelemetry.ext.pymemcache" rfl⟩

end Pymemcache
